import Mathlib

/-!
Verification of the QRGPT form controller (`src/components/Body.tsx`).

The component is shallowly embedded: the React state hooks become a record
`BodyState`, the event handlers become pure functions from state to state
(plus an explicit effect log), and the single asynchronous suspension point
(the awaited timer) splits `handleSubmit` into the observable state chunks
the UI can render between.  Browser nondeterminism (the `Math.random`
draw, the generated id suffix, whether an awaited or clipboard operation
fails) is passed in as explicit parameters.
-/

namespace QRGPT

/-- `QrGenerateResponse` from `@/utils/service`, as used in `Body.tsx`:
the response record held in the `response` state hook. -/
structure QrGenerateResponse where
  image_url : String
  model_latency_ms : Int
  id : String
deriving DecidableEq, Repr

/-- `GenerateFormValues`: the two form fields of `generateFormSchema`. -/
structure GenerateFormValues where
  url : String
  prompt : String
deriving DecidableEq, Repr

/-- The two form fields, for attributing validation issues. -/
inductive FieldId
  | url
  | prompt
deriving DecidableEq, Repr

/-- One zod validation issue: the field it is attached to and its message. -/
structure FieldError where
  field : FieldId
  message : String
deriving DecidableEq, Repr

/-- JavaScript `String.prototype.length` counts UTF-16 code units: a code
point at or above `0x10000` contributes two.  The zod `.min` and `.max` string
checks use this length. -/
def utf16Length (s : String) : Nat :=
  s.data.foldl (fun n c => n + (if c.toNat < 0x10000 then 1 else 2)) 0

/-- `generateFormSchema` (Body.tsx lines 36-39): `url` must be non-empty,
`prompt` must be 3 to 160 (UTF-16) characters.  Returns the list of zod
issues, empty exactly when the input parses. -/
def generateFormSchemaCheck (v : GenerateFormValues) : List FieldError :=
  (if utf16Length v.url < 1 then
      [{ field := FieldId.url, message := "URL is required" }]
    else []) ++
  (if utf16Length v.prompt < 3 then
      [{ field := FieldId.prompt,
         message := "Prompt must be at least 3 characters" }]
    else if 160 < utf16Length v.prompt then
      [{ field := FieldId.prompt,
         message := "String must contain at most 160 character(s)" }]
    else [])

/-- The four `useState` hooks of the `Body` component (lines 56-59)
together with the current form field values managed by `react-hook-form`. -/
structure BodyState where
  isLoading : Bool
  error : Option String
  response : Option QrGenerateResponse
  submittedURL : Option String
  formValues : GenerateFormValues
deriving DecidableEq, Repr

/-- The `RequestState` enumeration of the specification. -/
inductive RequestStateTag
  | Idle
  | Loading
  | Success
  | Failed
deriving DecidableEq, Repr

/-- The abstract `RequestState` of the specification, read off the component state the way
the UI renders it: the loading indicator when `isLoading`, the error alert
when `error` is set, the result card when `response` is set, idle
otherwise. -/
def requestState (s : BodyState) : RequestStateTag :=
  if s.isLoading then RequestStateTag.Loading
  else if s.error.isSome then RequestStateTag.Failed
  else if s.response.isSome then RequestStateTag.Success
  else RequestStateTag.Idle

/-- `form.formState.isValid`: the resolver reports no issues. -/
def formIsValid (s : BodyState) : Bool :=
  (generateFormSchemaCheck s.formValues).isEmpty

/-- The `disabled` attribute of the submit button (line 226):
`isLoading || !form.formState.isValid`. -/
def buttonDisabled (s : BodyState) : Bool :=
  s.isLoading || !formIsValid s

/-- Observable side effects of the handlers. -/
inductive Effect
  | serviceCall (url : String)
  | awaitTimer (ms : Nat)
  | toastSuccess (msg : String)
  | toastError (msg : String)
deriving DecidableEq, Repr

/-- Is this effect an outgoing network request to the QR service? -/
def Effect.isServiceCall : Effect → Bool
  | Effect.serviceCall _ => true
  | _ => false

/-- Number of QR-service network requests in an effect log. -/
def serviceCallCount (l : List Effect) : Nat :=
  (l.filter Effect.isServiceCall).length

/-- Characters `encodeURIComponent` leaves unescaped:
letters, digits, and the nine marks hyphen, underscore, dot,
exclamation, tilde, asterisk, apostrophe and the two parentheses. -/
def uriUnescaped (c : Char) : Bool :=
  (65 ≤ c.toNat && c.toNat ≤ 90) ||
  (97 ≤ c.toNat && c.toNat ≤ 122) ||
  (48 ≤ c.toNat && c.toNat ≤ 57) ||
  [45, 95, 46, 33, 126, 42, 39, 40, 41].contains c.toNat

/-- UTF-8 bytes of a code point (as natural numbers below 256). -/
def utf8Bytes (c : Char) : List Nat :=
  let n := c.toNat
  if n < 0x80 then [n]
  else if n < 0x800 then [0xC0 + n / 64, 0x80 + n % 64]
  else if n < 0x10000 then
    [0xE0 + n / 4096, 0x80 + (n / 64) % 64, 0x80 + n % 64]
  else
    [0xF0 + n / 262144, 0x80 + (n / 4096) % 64,
     0x80 + (n / 64) % 64, 0x80 + n % 64]

/-- Upper-case hexadecimal digit for `n < 16`. -/
def hexUpper (n : Nat) : Char :=
  if n < 10 then Char.ofNat (48 + n) else Char.ofNat (55 + n)

/-- `%XX` escape of one byte. -/
def percentEscape (b : Nat) : List Char :=
  [Char.ofNat 37, hexUpper (b / 16), hexUpper (b % 16)]

/-- JavaScript `encodeURIComponent`: unescaped characters pass through,
every other character is replaced by the `%XX` escapes of its UTF-8
bytes. -/
def encodeURIComponent (s : String) : String :=
  String.mk (s.data.flatMap fun c =>
    if uriUnescaped c then [c] else (utf8Bytes c).flatMap percentEscape)

/-- The QR image address built in `handleSubmit` (lines 100-101). -/
def qrCodeUrlFor (url : String) : String :=
  "https://api.qrserver.com/v1/create-qr-code/?size=300x300&data="
    ++ encodeURIComponent url

/-- `Math.floor(Math.random() * 500) + 200` (line 106), with the
`Math.random()` draw `r ∈ [0, 1)` passed in explicitly. -/
def latencyOf (r : ℚ) : Int :=
  Rat.floor (r * 500) + 200

/-- The `mockResponse` record built in `handleSubmit` (lines 104-108).
The id suffix produced from `Date.now()` and `Math.random()` is passed in
as `idTag`. -/
def mockResponse (url : String) (r : ℚ) (idTag : String) : QrGenerateResponse :=
  { image_url := qrCodeUrlFor url
    model_latency_ms := latencyOf r
    id := "qr-" ++ idTag }

/-- Whether the operation awaited inside the `try` block settles normally
or rejects (throws at the `await`). -/
inductive AwaitOutcome
  | ok
  | throws
deriving DecidableEq, Repr

/-- The awaited operation in `handleSubmit` (line 111) is
`new Promise(resolve => setTimeout(resolve, 1000))`: its executor only ever
calls `resolve`, so the promise always fulfills and the `await` never
throws. -/
def timerOutcome : AwaitOutcome :=
  AwaitOutcome.ok

/-- The synchronous head of `handleSubmit` (lines 94-96), executed before
the suspension point: `setIsLoading(true); setError(null);
setResponse(null)`. -/
def loadingOf (s : BodyState) : BodyState :=
  { s with isLoading := true, error := none, response := none }

/-- The resumption of `handleSubmit` when the awaited promise fulfills
(lines 113-115 and the `finally`): store the mock response and the
submitted URL, clear the loading flag. -/
def resolveOk (s : BodyState) (data : GenerateFormValues) (r : ℚ)
    (idTag : String) : BodyState :=
  { s with response := some (mockResponse data.url r idTag)
           submittedURL := some data.url
           isLoading := false }

/-- The error message built in the `catch` block (line 118). -/
def failMsg : String :=
  "Failed to generate QR code. Please try again."

/-- The `catch` block of `handleSubmit` (lines 117-120) plus the `finally`:
store the error, clear the loading flag. -/
def resolveErr (s : BodyState) : BodyState :=
  { s with error := some failMsg, isLoading := false }

/-- Result of one run of `handleSubmit`: the observable states after each
synchronous chunk (the chunk before the `await`, then the chunk after it),
and the logged effects. -/
structure SubmitResult where
  states : List BodyState
  effects : List Effect
deriving DecidableEq, Repr

/-- `handleSubmit` (lines 93-124), parametrised by whether the awaited
operation throws.  Note the body performs no network request: the QR image
address is a string built locally, so no `Effect.serviceCall` is ever
logged. -/
def handleSubmitWith (s : BodyState) (data : GenerateFormValues) (r : ℚ)
    (idTag : String) (oc : AwaitOutcome) : SubmitResult :=
  let l := loadingOf s
  match oc with
  | AwaitOutcome.ok =>
      { states := [l, resolveOk l data r idTag]
        effects := [Effect.awaitTimer 1000,
                    Effect.toastSuccess "QR Code generated successfully! 🎉"] }
  | AwaitOutcome.throws =>
      { states := [l, resolveErr l]
        effects := [Effect.awaitTimer 1000, Effect.toastError failMsg] }

/-- `handleSubmit` with the actual semantics of the awaited timer. -/
def handleSubmitRun (s : BodyState) (data : GenerateFormValues) (r : ℚ)
    (idTag : String) : SubmitResult :=
  handleSubmitWith s data r idTag timerOutcome

/-- Outcome of `form.handleSubmit(handleSubmit)` (line 166): either the
resolver rejects the values and the inner handler never runs, or the inner
handler runs. -/
inductive SubmitOutcome
  | rejected (errors : List FieldError)
  | ran (result : SubmitResult)
deriving DecidableEq, Repr

/-- `form.handleSubmit(handleSubmit)`, parametrised by the await outcome:
`react-hook-form` validates with the zod resolver and only invokes the
inner handler when there are no issues. -/
def formSubmitWith (s : BodyState) (data : GenerateFormValues) (r : ℚ)
    (idTag : String) (oc : AwaitOutcome) : SubmitOutcome :=
  let errs := generateFormSchemaCheck data
  if errs.isEmpty then SubmitOutcome.ran (handleSubmitWith s data r idTag oc)
  else SubmitOutcome.rejected errs

/-- `form.handleSubmit(handleSubmit)` with the actual timer semantics. -/
def formSubmitRun (s : BodyState) (data : GenerateFormValues) (r : ℚ)
    (idTag : String) : SubmitOutcome :=
  formSubmitWith s data r idTag timerOutcome

/-- Effects logged by a submit attempt (a rejected attempt logs none). -/
def SubmitOutcome.effectLog : SubmitOutcome → List Effect
  | SubmitOutcome.rejected _ => []
  | SubmitOutcome.ran res => res.effects

/-- `handleSuggestionClick` (lines 85-90):
`form.setValue` on the prompt field with the validate flag replaces
the prompt field value and nothing else. -/
def handleSuggestionClick (s : BodyState) (suggestion : String) : BodyState :=
  { s with formValues := { s.formValues with prompt := suggestion } }

/-- How the clipboard behaves when `handleShare` runs: the write request
succeeds; or accessing `navigator.clipboard.writeText` throws synchronously
(e.g. the API is unavailable); or the call returns a promise that later
rejects (e.g. permission denied). -/
inductive ClipOutcome
  | ok
  | syncThrow
  | asyncReject
deriving DecidableEq, Repr

/-- Result of one `handleShare` call: the write requests issued to the
clipboard, the toasts shown, whether an exception escaped to the caller,
and whether a promise rejection was left unhandled. -/
structure ShareResult where
  clipboardWrites : List String
  toasts : List Effect
  thrownToCaller : Bool
  unhandledRejection : Bool
deriving DecidableEq, Repr

/-- `handleShare` (lines 137-144).  The body wraps
`navigator.clipboard.writeText(origin + "/start/" + qrId)` in a `try`
block with no `await`: a synchronous throw is caught and turned into the
failure toast, but when the returned promise rejects the `catch` never
runs — the success toast has already been shown and the rejection is left
unhandled. -/
def handleShare (origin qrId : String) (oc : ClipOutcome) : ShareResult :=
  let text := origin ++ "/start/" ++ qrId
  match oc with
  | ClipOutcome.ok =>
      { clipboardWrites := [text]
        toasts := [Effect.toastSuccess "Link copied to clipboard! 📋"]
        thrownToCaller := false
        unhandledRejection := false }
  | ClipOutcome.syncThrow =>
      { clipboardWrites := []
        toasts := [Effect.toastError "Failed to copy link"]
        thrownToCaller := false
        unhandledRejection := false }
  | ClipOutcome.asyncReject =>
      { clipboardWrites := [text]
        toasts := [Effect.toastSuccess "Link copied to clipboard! 📋"]
        thrownToCaller := false
        unhandledRejection := true }

/-- The mount-time props of the component (lines 43-55), each possibly absent. -/
structure InitProps where
  imageUrl : Option String
  promptInit : Option String
  redirectUrl : Option String
  modelLatency : Option Int
  propId : Option String
deriving DecidableEq, Repr

/-- JavaScript truthiness of an optional string prop. -/
def truthyStr : Option String → Bool
  | some s => !s.isEmpty
  | none => false

/-- JavaScript truthiness of an optional number prop. -/
def truthyNum : Option Int → Bool
  | some n => n != 0
  | none => false

/-- The guard of the mount `useEffect` (line 73):
`imageUrl && prompt && redirectUrl && modelLatency && id`. -/
def propsPresent (p : InitProps) : Bool :=
  truthyStr p.imageUrl && truthyStr p.promptInit && truthyStr p.redirectUrl
    && truthyNum p.modelLatency && truthyStr p.propId

/-- The state-hook defaults (lines 56-59) and form defaults (lines 66-69). -/
def initialBody : BodyState :=
  { isLoading := false
    error := none
    response := none
    submittedURL := none
    formValues := { url := "", prompt := "" } }

/-- The body of the mount `useEffect` (lines 72-83): when every prop is
truthy, install the prior generation result and prefill the form. -/
def mountEffect (p : InitProps) (s : BodyState) : BodyState :=
  match p.imageUrl, p.promptInit, p.redirectUrl, p.modelLatency, p.propId with
  | some iu, some pr, some ru, some ml, some i =>
      if propsPresent p then
        { s with response := some { image_url := iu, model_latency_ms := ml, id := i }
                 submittedURL := some ru
                 formValues := { url := ru, prompt := pr } }
      else s
  | _, _, _, _, _ => s

/-- The controller as the step relation sees it: the component state plus
whether a `handleSubmit` continuation is outstanding (a submit has started
and its awaited timer has not resolved yet). -/
structure Ctrl where
  st : BodyState
  pending : Bool
deriving DecidableEq, Repr

/-- The controller right after mount: defaults, then the mount effect
(which runs after the first render, before any user interaction). -/
def initCtrl (p : InitProps) : Ctrl :=
  { st := mountEffect p initialBody, pending := false }

/-- One event-loop turn of the controller.  Text fields stay enabled
throughout, so typing and suggestion clicks are always possible; a submit
can start only through the enabled submit button (not loading, form valid)
and then splits into its start chunk and, once the awaited promise
settles, its resolve chunk. -/
inductive Step : Ctrl → Ctrl → Prop
  | typing (c : Ctrl) (v : GenerateFormValues) :
      Step c { st := { c.st with formValues := v }, pending := c.pending }
  | suggest (c : Ctrl) (t : String) :
      Step c { st := handleSuggestionClick c.st t, pending := c.pending }
  | submitStart (c : Ctrl) (h : c.pending = false)
      (hb : buttonDisabled c.st = false) :
      Step c { st := loadingOf c.st, pending := true }
  | submitOk (c : Ctrl) (data : GenerateFormValues) (r : ℚ) (idTag : String)
      (h : c.pending = true) :
      Step c { st := resolveOk c.st data r idTag, pending := false }
  | submitErr (c : Ctrl) (h : c.pending = true) :
      Step c { st := resolveErr c.st, pending := false }

/-- States the controller can reach from mount with props `p`. -/
def Reachable (p : InitProps) (c : Ctrl) : Prop :=
  Relation.ReflTransGen Step (initCtrl p) c

/-- Is `sub` a contiguous segment of `l`? -/
def segmentOf (sub l : List Char) : Bool :=
  match l with
  | [] => sub.isEmpty
  | _ :: t => sub.isPrefixOf l || segmentOf sub t

/-- Substring test on strings, via the underlying character lists. -/
def containsSub (s sub : String) : Bool :=
  segmentOf sub.data s.data

/-- A minimal well-formedness check for the generated image address: it
carries the https scheme. -/
def urlHasHttpsScheme (s : String) : Bool :=
  "https://".data.isPrefixOf s.data

/-- The final observable state of one `handleSubmit` run. -/
def finalStateOf (s : BodyState) (data : GenerateFormValues) (r : ℚ)
    (idTag : String) : AwaitOutcome → BodyState
  | AwaitOutcome.ok => resolveOk (loadingOf s) data r idTag
  | AwaitOutcome.throws => resolveErr (loadingOf s)

/-- The form values of the round-trip scenario. -/
def exampleData : GenerateFormValues :=
  { url := "https://example.com", prompt := "A city view with clouds" }

/-- A mount with no props supplied. -/
def noProps : InitProps :=
  { imageUrl := none, promptInit := none, redirectUrl := none,
    modelLatency := none, propId := none }

/-- The inductive invariant of the controller: the loading flag tracks the
outstanding continuation; while a submit is outstanding the response and
error slots are clear; the response and error slots are never both
occupied. -/
def Inv (c : Ctrl) : Prop :=
  c.st.isLoading = c.pending ∧
  (c.pending = true → c.st.response = none ∧ c.st.error = none) ∧
  ¬(c.st.response.isSome = true ∧ c.st.error.isSome = true)

lemma ratFloor_eq_floor (q : ℚ) : Rat.floor q = ⌊q⌋ := by
  rw [Rat.floor_def', ← Rat.floor_def]

lemma latencyOf_eq (r : ℚ) : latencyOf r = ⌊r * 500⌋ + 200 := by
  unfold latencyOf
  rw [ratFloor_eq_floor]

lemma latencyOf_lb (r : ℚ) (h : 0 ≤ r) : 200 ≤ latencyOf r := by
  rw [latencyOf_eq]
  have : (0 : ℤ) ≤ ⌊r * 500⌋ :=
    Int.floor_nonneg.mpr (by positivity)
  omega

lemma latencyOf_ub (r : ℚ) (h : r < 1) : latencyOf r ≤ 699 := by
  rw [latencyOf_eq]
  have h5 : r * 500 < ((500 : ℤ) : ℚ) := by
    push_cast
    nlinarith
  have : ⌊r * 500⌋ < (500 : ℤ) := Int.floor_lt.mpr h5
  omega

lemma latencyOf_eq_iff (n : ℤ) (r : ℚ) :
    latencyOf r = n ↔ ((n : ℚ) - 200) / 500 ≤ r ∧ r < ((n : ℚ) - 199) / 500 := by
  rw [latencyOf_eq]
  have h1 : (⌊r * 500⌋ + 200 = n) ↔ (⌊r * 500⌋ = n - 200) := by omega
  rw [h1, Int.floor_eq_iff]
  constructor
  · rintro ⟨ha, hb⟩
    constructor
    · rw [div_le_iff₀ (by norm_num : (0 : ℚ) < 500)]
      push_cast at ha ⊢
      linarith
    · rw [lt_div_iff₀ (by norm_num : (0 : ℚ) < 500)]
      push_cast at hb ⊢
      linarith
  · rintro ⟨ha, hb⟩
    constructor
    · rw [div_le_iff₀ (by norm_num : (0 : ℚ) < 500)] at ha
      push_cast
      linarith
    · rw [lt_div_iff₀ (by norm_num : (0 : ℚ) < 500)] at hb
      push_cast
      linarith

lemma formSubmitWith_of_valid (s : BodyState) (data : GenerateFormValues)
    (r : ℚ) (idTag : String) (oc : AwaitOutcome)
    (h : generateFormSchemaCheck data = []) :
    formSubmitWith s data r idTag oc
      = SubmitOutcome.ran (handleSubmitWith s data r idTag oc) := by
  unfold formSubmitWith
  rw [h]
  rfl

lemma formSubmitWith_of_ne_nil (s : BodyState) (data : GenerateFormValues)
    (r : ℚ) (idTag : String) (oc : AwaitOutcome)
    (h : generateFormSchemaCheck data ≠ []) :
    formSubmitWith s data r idTag oc
      = SubmitOutcome.rejected (generateFormSchemaCheck data) := by
  unfold formSubmitWith
  rcases he : generateFormSchemaCheck data with _ | ⟨a, l⟩
  · exact absurd he h
  · rfl

lemma handleSubmitWith_states (s : BodyState) (data : GenerateFormValues)
    (r : ℚ) (idTag : String) (oc : AwaitOutcome) :
    (handleSubmitWith s data r idTag oc).states
      = [loadingOf s, finalStateOf s data r idTag oc] := by
  cases oc <;> rfl

lemma handleSubmitWith_no_service (s : BodyState) (data : GenerateFormValues)
    (r : ℚ) (idTag : String) (oc : AwaitOutcome) :
    serviceCallCount (handleSubmitWith s data r idTag oc).effects = 0 := by
  cases oc <;> rfl

lemma requestState_loadingOf (s : BodyState) :
    requestState (loadingOf s) = RequestStateTag.Loading := by
  simp [requestState, loadingOf]

lemma requestState_resolveOk (s : BodyState) (data : GenerateFormValues)
    (r : ℚ) (idTag : String) (he : s.error = none) :
    requestState (resolveOk s data r idTag) = RequestStateTag.Success := by
  simp [requestState, resolveOk, he]

lemma requestState_resolveErr (s : BodyState) :
    requestState (resolveErr s) = RequestStateTag.Failed := by
  simp [requestState, resolveErr, failMsg]

lemma mountEffect_isLoading (p : InitProps) (s : BodyState) :
    (mountEffect p s).isLoading = s.isLoading := by
  unfold mountEffect
  rcases p with ⟨iu, pr, ru, ml, i⟩
  cases iu <;> cases pr <;> cases ru <;> cases ml <;> cases i <;>
    first
      | rfl
      | (dsimp only; split <;> rfl)

lemma mountEffect_error (p : InitProps) (s : BodyState) :
    (mountEffect p s).error = s.error := by
  unfold mountEffect
  rcases p with ⟨iu, pr, ru, ml, i⟩
  cases iu <;> cases pr <;> cases ru <;> cases ml <;> cases i <;>
    first
      | rfl
      | (dsimp only; split <;> rfl)

lemma inv_init (p : InitProps) : Inv (initCtrl p) := by
  refine ⟨?_, ?_, ?_⟩
  · show (mountEffect p initialBody).isLoading = false
    rw [mountEffect_isLoading]
    rfl
  · intro hh
    exact absurd hh Bool.false_ne_true
  · rintro ⟨_, he⟩
    have : (mountEffect p initialBody).error = none := by
      rw [mountEffect_error]
      rfl
    rw [show (initCtrl p).st = mountEffect p initialBody from rfl, this] at he
    exact absurd he (by decide)

lemma inv_step {c c' : Ctrl} (hs : Step c c') (h : Inv c) : Inv c' := by
  obtain ⟨h1, h2, h3⟩ := h
  cases hs with
  | typing v => exact ⟨h1, h2, h3⟩
  | suggest t => exact ⟨h1, h2, h3⟩
  | submitStart hp hb =>
      refine ⟨rfl, fun _ => ⟨rfl, rfl⟩, ?_⟩
      rintro ⟨hr, _⟩
      simp [loadingOf] at hr
  | submitOk data r idTag hp =>
      obtain ⟨_, herr⟩ := h2 hp
      refine ⟨rfl, fun hh => absurd hh Bool.false_ne_true, ?_⟩
      rintro ⟨_, he⟩
      rw [show (resolveOk c.st data r idTag).error = c.st.error from rfl, herr] at he
      exact absurd he (by decide)
  | submitErr hp =>
      obtain ⟨hresp, _⟩ := h2 hp
      refine ⟨rfl, fun hh => absurd hh Bool.false_ne_true, ?_⟩
      rintro ⟨hr, _⟩
      rw [show (resolveErr c.st).response = c.st.response from rfl, hresp] at hr
      exact absurd hr (by decide)

lemma reachable_inv {p : InitProps} {c : Ctrl} (h : Reachable p c) : Inv c := by
  induction h with
  | refl => exact inv_init p
  | tail _ hstep ih => exact inv_step hstep ih

lemma inv_response_iff {c : Ctrl} (h : Inv c) :
    c.st.response.isSome = true ↔ requestState c.st = RequestStateTag.Success := by
  obtain ⟨h1, h2, h3⟩ := h
  constructor
  · intro hr
    have he : c.st.error.isSome = false := by
      cases hev : c.st.error.isSome
      · rfl
      · exact absurd ⟨hr, hev⟩ h3
    have hl : c.st.isLoading = false := by
      cases hlv : c.st.isLoading
      · rfl
      · obtain ⟨hresp, _⟩ := h2 (h1.symm.trans hlv)
        rw [hresp] at hr
        exact absurd hr (by decide)
    simp [requestState, hl, he, hr]
  · intro hs
    cases hr : c.st.response.isSome
    · exfalso
      cases hl : c.st.isLoading <;> cases hev : c.st.error.isSome <;>
        simp [requestState, hl, hev, hr] at hs
    · rfl

/-- Claim C1: for every input whose url field is the empty string, or whose
prompt field has length below 3 or above 160, submit yields a validation
error for that field, the inner handler is never invoked (the outcome is
`rejected`), and no effect — in particular no QR-service call — happens. -/
theorem validation_rejects_and_skips_service (s : BodyState)
    (data : GenerateFormValues) (r : ℚ) (idTag : String) (oc : AwaitOutcome)
    (h : data.url = "" ∨ utf16Length data.prompt < 3
          ∨ 160 < utf16Length data.prompt) :
    formSubmitWith s data r idTag oc
      = SubmitOutcome.rejected (generateFormSchemaCheck data) ∧
    (data.url = "" →
      { field := FieldId.url, message := "URL is required" }
        ∈ generateFormSchemaCheck data) ∧
    ((utf16Length data.prompt < 3 ∨ 160 < utf16Length data.prompt) →
      ∃ m, ({ field := FieldId.prompt, message := m } : FieldError)
        ∈ generateFormSchemaCheck data) ∧
    (formSubmitWith s data r idTag oc).effectLog = [] := by
  have hu : data.url = "" →
      ({ field := FieldId.url, message := "URL is required" } : FieldError)
        ∈ generateFormSchemaCheck data := by
    intro hu0
    unfold generateFormSchemaCheck
    rw [hu0, if_pos (by decide : utf16Length "" < 1)]
    exact List.mem_append_left _ (List.mem_cons_self _ _)
  have hp : (utf16Length data.prompt < 3 ∨ 160 < utf16Length data.prompt) →
      ∃ m, ({ field := FieldId.prompt, message := m } : FieldError)
        ∈ generateFormSchemaCheck data := by
    intro hp0
    unfold generateFormSchemaCheck
    rcases hp0 with hlt | hgt
    · refine ⟨"Prompt must be at least 3 characters", ?_⟩
      rw [if_pos hlt]
      exact List.mem_append_right _ (List.mem_cons_self _ _)
    · refine ⟨"String must contain at most 160 character(s)", ?_⟩
      rw [if_neg (by omega : ¬ utf16Length data.prompt < 3), if_pos hgt]
      exact List.mem_append_right _ (List.mem_cons_self _ _)
  have hne : generateFormSchemaCheck data ≠ [] := by
    rcases h with hu0 | hp0
    · exact List.ne_nil_of_mem (hu hu0)
    · obtain ⟨m, hm⟩ := hp hp0
      exact List.ne_nil_of_mem hm
  have heq := formSubmitWith_of_ne_nil s data r idTag oc hne
  refine ⟨heq, hu, hp, ?_⟩
  rw [heq]
  rfl

/-- Witness for claim C1 at the empty url. -/
theorem validation_rejects_and_skips_service_witness :
    formSubmitWith initialBody { url := "", prompt := "hello" } 0 "w1"
        AwaitOutcome.ok
      = SubmitOutcome.rejected
          (generateFormSchemaCheck { url := "", prompt := "hello" }) :=
  (validation_rejects_and_skips_service initialBody
    { url := "", prompt := "hello" } 0 "w1" AwaitOutcome.ok (Or.inl rfl)).1

/-- Claim C2 (counterexample): a submit of a valid input makes zero QR
service calls, not exactly one — the image address is built locally. -/
theorem submit_makes_zero_service_calls :
    serviceCallCount (formSubmitRun initialBody exampleData 0 "t").effectLog = 0
      ∧ serviceCallCount
          (formSubmitRun initialBody exampleData 0 "t").effectLog ≠ 1 := by
  constructor
  · decide
  · decide

/-- Claim C2 (amended): a single submit of a valid input makes no QR
service call at all; the request state passes through Loading before
reaching Success or Failed, never skipping Loading; and whenever the
loading flag is set the trigger button is disabled, so no second submit
can start while one is in flight. -/
theorem submit_lifecycle_no_service_call (s : BodyState)
    (data : GenerateFormValues) (r : ℚ) (idTag : String) (oc : AwaitOutcome)
    (h : generateFormSchemaCheck data = []) :
    formSubmitWith s data r idTag oc
      = SubmitOutcome.ran (handleSubmitWith s data r idTag oc) ∧
    (handleSubmitWith s data r idTag oc).states
      = [loadingOf s, finalStateOf s data r idTag oc] ∧
    requestState (loadingOf s) = RequestStateTag.Loading ∧
    (requestState (finalStateOf s data r idTag oc) = RequestStateTag.Success ∨
      requestState (finalStateOf s data r idTag oc) = RequestStateTag.Failed) ∧
    serviceCallCount (handleSubmitWith s data r idTag oc).effects = 0 ∧
    (∀ t : BodyState, t.isLoading = true → buttonDisabled t = true) := by
  refine ⟨formSubmitWith_of_valid s data r idTag oc h,
    handleSubmitWith_states s data r idTag oc, requestState_loadingOf s, ?_,
    handleSubmitWith_no_service s data r idTag oc, ?_⟩
  · cases oc
    · exact Or.inl (requestState_resolveOk (loadingOf s) data r idTag rfl)
    · exact Or.inr (requestState_resolveErr (loadingOf s))
  · intro t ht
    simp [buttonDisabled, ht]

/-- Witness for the amended claim C2 at a concrete valid input. -/
theorem submit_lifecycle_no_service_call_witness :
    formSubmitWith initialBody exampleData 0 "w2" AwaitOutcome.ok
      = SubmitOutcome.ran
          (handleSubmitWith initialBody exampleData 0 "w2" AwaitOutcome.ok) :=
  (submit_lifecycle_no_service_call initialBody exampleData 0 "w2"
    AwaitOutcome.ok (by decide)).1

/-- Claim C3: in every reachable controller state, a generation result is
present if and only if the request state is Success. -/
theorem response_present_iff_success (p : InitProps) (c : Ctrl)
    (h : Reachable p c) :
    c.st.response.isSome = true ↔ requestState c.st = RequestStateTag.Success :=
  inv_response_iff (reachable_inv h)

/-- Witness for claim C3 at the freshly mounted controller. -/
theorem response_present_iff_success_witness :
    (initCtrl noProps).st.response.isSome = true ↔
      requestState (initCtrl noProps).st = RequestStateTag.Success :=
  response_present_iff_success noProps (initCtrl noProps)
    Relation.ReflTransGen.refl

/-- Claim C4: if the awaited operation inside the submit handler throws,
the request state becomes Failed with the non-empty message of the catch
block, the previous generation result stays cleared (the handler nulled it
before suspending and the catch does not restore it), and no retry or
network call happens. -/
theorem submit_failure_path (s : BodyState) (data : GenerateFormValues)
    (r : ℚ) (idTag : String) (h : generateFormSchemaCheck data = []) :
    formSubmitWith s data r idTag AwaitOutcome.throws
      = SubmitOutcome.ran (handleSubmitWith s data r idTag AwaitOutcome.throws) ∧
    (handleSubmitWith s data r idTag AwaitOutcome.throws).states
      = [loadingOf s, resolveErr (loadingOf s)] ∧
    requestState (resolveErr (loadingOf s)) = RequestStateTag.Failed ∧
    (resolveErr (loadingOf s)).error = some failMsg ∧
    failMsg ≠ "" ∧
    (resolveErr (loadingOf s)).response = none ∧
    (handleSubmitWith s data r idTag AwaitOutcome.throws).effects
      = [Effect.awaitTimer 1000, Effect.toastError failMsg] ∧
    serviceCallCount
      (handleSubmitWith s data r idTag AwaitOutcome.throws).effects = 0 :=
  ⟨formSubmitWith_of_valid s data r idTag AwaitOutcome.throws h, rfl,
    requestState_resolveErr (loadingOf s), rfl, by decide, rfl, rfl, rfl⟩

/-- Witness for claim C4 at a concrete valid input. -/
theorem submit_failure_path_witness :
    requestState (resolveErr (loadingOf initialBody)) = RequestStateTag.Failed :=
  (submit_failure_path initialBody exampleData 0 "w4" (by decide)).2.2.1

set_option maxRecDepth 8000 in
/-- Claim C5: submitting the valid input url https example com with the
city-view prompt goes through Loading to Success, and the resulting
record has an image address that is an https URL containing the
percent-encoded target, and a positive integral latency. -/
theorem round_trip_example (s : BodyState) (r : ℚ) (idTag : String)
    (h0 : 0 ≤ r) (h1 : r < 1) :
    formSubmitRun s exampleData r idTag
      = SubmitOutcome.ran (handleSubmitWith s exampleData r idTag AwaitOutcome.ok) ∧
    (handleSubmitWith s exampleData r idTag AwaitOutcome.ok).states
      = [loadingOf s, resolveOk (loadingOf s) exampleData r idTag] ∧
    requestState (loadingOf s) = RequestStateTag.Loading ∧
    requestState (resolveOk (loadingOf s) exampleData r idTag)
      = RequestStateTag.Success ∧
    (resolveOk (loadingOf s) exampleData r idTag).response
      = some (mockResponse exampleData.url r idTag) ∧
    urlHasHttpsScheme (mockResponse exampleData.url r idTag).image_url
      = true ∧
    containsSub (mockResponse exampleData.url r idTag).image_url
      "https%3A%2F%2Fexample.com" = true ∧
    0 < (mockResponse exampleData.url r idTag).model_latency_ms := by
  refine ⟨formSubmitWith_of_valid s exampleData r idTag AwaitOutcome.ok
      (by decide), rfl, requestState_loadingOf s,
    requestState_resolveOk (loadingOf s) exampleData r idTag rfl, rfl,
    ?_, ?_, ?_⟩
  · show urlHasHttpsScheme (qrCodeUrlFor exampleData.url) = true
    decide
  · show containsSub (qrCodeUrlFor exampleData.url) "https%3A%2F%2Fexample.com"
      = true
    decide
  · have := latencyOf_lb r h0
    show 0 < latencyOf r
    omega

/-- Witness for claim C5 at the random draw zero. -/
theorem round_trip_example_witness :
    containsSub (mockResponse exampleData.url 0 "w5").image_url
      "https%3A%2F%2Fexample.com" = true :=
  (round_trip_example initialBody 0 "w5" (le_refl 0) zero_lt_one).2.2.2.2.2.2.1

/-- Claim C6: from a success state whose result has id qr-123, a share
click issues exactly one clipboard write whose text is the page origin
followed by the path start slash qr-123, whenever the clipboard API is
reachable (it does not throw on access). -/
theorem shareLink_writes_once (origin : String) (oc : ClipOutcome)
    (h : oc ≠ ClipOutcome.syncThrow) :
    (handleShare origin "qr-123" oc).clipboardWrites
      = [origin ++ "/start/qr-123"] ∧
    (handleShare origin "qr-123" oc).clipboardWrites.length = 1 := by
  have hinner : ("/start/" ++ "qr-123" : String) = "/start/qr-123" := by decide
  have hs : origin ++ "/start/" ++ "qr-123" = origin ++ "/start/qr-123" := by
    rw [String.append_assoc, hinner]
  cases oc with
  | ok =>
      refine ⟨?_, rfl⟩
      show [origin ++ "/start/" ++ "qr-123"] = [origin ++ "/start/qr-123"]
      rw [hs]
  | syncThrow => exact absurd rfl h
  | asyncReject =>
      refine ⟨?_, rfl⟩
      show [origin ++ "/start/" ++ "qr-123"] = [origin ++ "/start/qr-123"]
      rw [hs]

/-- Witness for claim C6 at a concrete origin. -/
theorem shareLink_writes_once_witness :
    (handleShare "https://qrgpt.example" "qr-123"
      ClipOutcome.ok).clipboardWrites.length = 1 :=
  (shareLink_writes_once "https://qrgpt.example" ClipOutcome.ok (by decide)).2

/-- Claim C7: a suggestion click sets the prompt field to exactly the
clicked string, leaves the request state unchanged (it does not submit),
and clicking the same suggestion again is idempotent. -/
theorem suggestion_click_spec (s : BodyState) (t : String) :
    (handleSuggestionClick s t).formValues.prompt = t ∧
    requestState (handleSuggestionClick s t) = requestState s ∧
    handleSuggestionClick (handleSuggestionClick s t) t
      = handleSuggestionClick s t :=
  ⟨rfl, rfl, rfl⟩

/-- Claim C8 (code evaluation at the failing input): when the clipboard
write promise rejects — the permission-denied case — the share handler
leaves the rejection unhandled and still shows the success toast; no
failure notification is produced, though nothing is thrown to the
caller. -/
theorem share_async_reject_uncaught :
    (handleShare "https://example.com" "qr-123"
        ClipOutcome.asyncReject).unhandledRejection = true ∧
    (handleShare "https://example.com" "qr-123" ClipOutcome.asyncReject).toasts
      = [Effect.toastSuccess "Link copied to clipboard! 📋"] ∧
    (handleShare "https://example.com" "qr-123"
        ClipOutcome.asyncReject).thrownToCaller = false :=
  ⟨rfl, rfl, rfl⟩

/-- Claim C9: with the actual awaited operation (a timer that always
fulfills), every valid submit ends in Success: the catch branch never
runs, no network request is made, and no error toast can appear. -/
theorem submit_never_fails (s : BodyState) (data : GenerateFormValues)
    (r : ℚ) (idTag : String) (h : generateFormSchemaCheck data = []) :
    timerOutcome = AwaitOutcome.ok ∧
    formSubmitRun s data r idTag
      = SubmitOutcome.ran (handleSubmitWith s data r idTag AwaitOutcome.ok) ∧
    (handleSubmitWith s data r idTag AwaitOutcome.ok).states
      = [loadingOf s, resolveOk (loadingOf s) data r idTag] ∧
    requestState (resolveOk (loadingOf s) data r idTag)
      = RequestStateTag.Success ∧
    (resolveOk (loadingOf s) data r idTag).error = none ∧
    (handleSubmitWith s data r idTag AwaitOutcome.ok).effects
      = [Effect.awaitTimer 1000,
         Effect.toastSuccess "QR Code generated successfully! 🎉"] ∧
    serviceCallCount (handleSubmitWith s data r idTag AwaitOutcome.ok).effects
      = 0 ∧
    (∀ m : String, Effect.toastError m
      ∉ (handleSubmitWith s data r idTag AwaitOutcome.ok).effects) := by
  refine ⟨rfl, formSubmitWith_of_valid s data r idTag AwaitOutcome.ok h, rfl,
    requestState_resolveOk (loadingOf s) data r idTag rfl, rfl, rfl, rfl, ?_⟩
  intro m hm
  simp [handleSubmitWith] at hm

/-- Witness for claim C9 at a concrete valid input. -/
theorem submit_never_fails_witness :
    requestState (resolveOk (loadingOf initialBody) exampleData 0 "w9")
      = RequestStateTag.Success :=
  (submit_never_fails initialBody exampleData 0 "w9" (by decide)).2.2.2.1

/-- Claim C10: the reported latency is the locally generated value floor
of r times 500 plus 200, an integer that ranges over exactly 200 to 699 as
the random draw ranges over the unit interval; each value n is hit exactly
on a half-open subinterval of length one five-hundredth, so the draw being
uniform makes the latency uniform on 200 to 699; it involves no timing
measurement. -/
theorem latency_uniform_range :
    (∀ (url idTag : String) (r : ℚ),
        (mockResponse url r idTag).model_latency_ms = latencyOf r) ∧
    (∀ r : ℚ, 0 ≤ r → r < 1 → 200 ≤ latencyOf r ∧ latencyOf r ≤ 699) ∧
    (∀ (n : ℤ) (r : ℚ),
        latencyOf r = n ↔
          ((n : ℚ) - 200) / 500 ≤ r ∧ r < ((n : ℚ) - 199) / 500) ∧
    (∀ n : ℤ, 200 ≤ n → n ≤ 699 → ∃ r : ℚ, 0 ≤ r ∧ r < 1 ∧ latencyOf r = n) := by
  refine ⟨fun _ _ _ => rfl,
    fun r h0 h1 => ⟨latencyOf_lb r h0, latencyOf_ub r h1⟩,
    fun n r => latencyOf_eq_iff n r, ?_⟩
  intro n hn1 hn2
  have hc1 : (200 : ℚ) ≤ (n : ℚ) := by exact_mod_cast hn1
  have hc2 : (n : ℚ) ≤ 699 := by exact_mod_cast hn2
  refine ⟨((n : ℚ) - 200) / 500, ?_, ?_, ?_⟩
  · apply div_nonneg
    · linarith
    · norm_num
  · rw [div_lt_one (by norm_num : (0 : ℚ) < 500)]
    linarith
  · rw [latencyOf_eq_iff]
    refine ⟨le_refl _, ?_⟩
    have h500 : (0 : ℚ) < 500 := by norm_num
    rw [div_lt_div_iff₀ h500 h500]
    linarith

/-- Witness for claim C10 at the random draw zero. -/
theorem latency_uniform_range_witness :
    200 ≤ latencyOf 0 ∧ latencyOf 0 ≤ 699 :=
  latency_uniform_range.2.1 0 (le_refl 0) zero_lt_one

end QRGPT
